import Mathlib

/-!
Verification of the CareConnect donation-tracking backend.

The source is an Express + SQLite application with two tables (`users`,
`medicines`) and five routes: `POST /register`, `POST /login`,
`DELETE /users/:userId`, `POST /donate`, `GET /users/:userId/donations`
and `GET /medicines`.  We embed the persistent store as a pair of lists
and each route handler as a pure function over that store; SQLite
transactions (BEGIN / ROLLBACK / COMMIT in the delete route) become
explicit all-or-nothing state updates, and injectable storage-failure
flags model the `err` callback branches.  bcrypt is treated as an opaque
hash/verify pair passed in as function parameters.
-/

namespace CareConnect

/-- A row of the `users` table (`createTables`): id (AUTOINCREMENT primary
key), fullname, email (UNIQUE), password (the bcrypt hash), dob, phone,
state. -/
structure User where
  id : Nat
  fullname : String
  email : String
  password : String
  dob : String
  phone : String
  state : String
deriving Repr, DecidableEq

/-- A row of the `medicines` table (`createTables`): id (AUTOINCREMENT
primary key), name, expiry_date, quantity (INTEGER NOT NULL — no CHECK
constraint), donor_id (nullable FK to users.id), donor_email,
donation_date (DEFAULT CURRENT_TIMESTAMP; modelled as a Nat timestamp,
which orders the same way the TEXT timestamps do). -/
structure Medicine where
  id : Nat
  name : String
  expiry_date : String
  quantity : Int
  donor_id : Option Nat
  donor_email : String
  donation_date : Nat
deriving Repr, DecidableEq

/-- The SQLite database: the two tables plus the AUTOINCREMENT counters
that produce `this.lastID`. -/
structure DB where
  users : List User
  medicines : List Medicine
  nextUserId : Nat
  nextMedId : Nat
deriving Repr, DecidableEq

/-- Fresh database right after `createTables`. -/
def initDB : DB := { users := [], medicines := [], nextUserId := 1, nextMedId := 1 }

/-- Outcome of `POST /register`: 400 "Passwords do not match"
(ValidationError), 400 "Email already in use" (ConflictError), or
201 with the new user id. -/
inductive RegisterResult where
  | passwordMismatch
  | emailInUse
  | ok (userId : Nat)
deriving Repr, DecidableEq

/-- `POST /register`: reject if password ≠ confirmPassword; then
`SELECT email FROM users WHERE email = ?` — if a row exists, reject with
"Email already in use"; otherwise hash the password and
`INSERT INTO users ...`, answering with `this.lastID`. -/
def register (bcryptHash : String → String) (db : DB)
    (fullname email password confirmPassword dob phone st : String) :
    RegisterResult × DB :=
  if password ≠ confirmPassword then (.passwordMismatch, db)
  else
    match db.users.find? (fun u => u.email == email) with
    | some _ => (.emailInUse, db)
    | none =>
      let hashedPassword := bcryptHash password
      let u : User :=
        { id := db.nextUserId, fullname := fullname, email := email,
          password := hashedPassword, dob := dob, phone := phone, state := st }
      (.ok db.nextUserId,
       { db with users := db.users ++ [u], nextUserId := db.nextUserId + 1 })

/-- Outcome of `POST /login`: either an error response with its HTTP
status and message, or the 200 payload, which carries the user id and
email only (the handler builds `{ message, userId, email }`). -/
inductive LoginResult where
  | err (status : Nat) (msg : String)
  | ok (userId : Nat) (email : String)
deriving Repr, DecidableEq

/-- `POST /login`: `SELECT * FROM users WHERE email = ?`; if no row,
400 "Invalid email or password"; if `bcrypt.compare` fails, the same
400 "Invalid email or password"; on success return the user's id and
email (the password field is destructured away). -/
def login (bcryptCompare : String → String → Bool) (db : DB)
    (email password : String) : LoginResult :=
  match db.users.find? (fun u => u.email == email) with
  | none => .err 400 "Invalid email or password"
  | some user =>
    if bcryptCompare password user.password then .ok user.id user.email
    else .err 400 "Invalid email or password"

/-- Outcome of `DELETE /users/:userId`: 500 on a storage error (with
ROLLBACK), 404 "User not found" (with ROLLBACK), or 200 (after COMMIT). -/
inductive DeleteResult where
  | storageError
  | notFound
  | ok
deriving Repr, DecidableEq

/-- `DELETE /users/:userId` with injectable storage failures for the two
statements inside the transaction.  The handler runs
`BEGIN TRANSACTION`; `UPDATE medicines SET donor_id = NULL WHERE
donor_id = ?` (ROLLBACK on error); `DELETE FROM users WHERE id = ?`
(ROLLBACK on error); if `this.changes === 0` ROLLBACK and 404; else
COMMIT.  ROLLBACK restores the pre-transaction store, so every non-ok
branch returns the original `db`. -/
def deleteAccountF (db : DB) (userId : Nat) (failUpdate failDelete : Bool) :
    DeleteResult × DB :=
  if failUpdate then (.storageError, db)
  else
    let medicines' := db.medicines.map (fun m =>
      if m.donor_id == some userId then { m with donor_id := none } else m)
    if failDelete then (.storageError, db)
    else
      let users' := db.users.filter (fun u => u.id != userId)
      let changes := db.users.length - users'.length
      if changes == 0 then (.notFound, db)
      else (.ok, { db with users := users', medicines := medicines' })

/-- `DELETE /users/:userId` on the failure-free path. -/
def deleteAccount (db : DB) (userId : Nat) : DeleteResult × DB :=
  deleteAccountF db userId false false

/-- Outcome of `POST /donate`: 500 on a storage error, or 201 with the
new donation id. -/
inductive DonateResult where
  | storageError
  | ok (donationId : Nat)
deriving Repr, DecidableEq

/-- `POST /donate` with injectable storage failures for the lookup and
the insert.  The handler runs `SELECT id FROM users WHERE email = ?`;
`donor_id` is the matched user's id, or NULL when no row matches (no
error in that case); then `INSERT INTO medicines (name, expiry_date,
quantity, donor_id, donor_email) VALUES (?, ?, ?, ?, ?)` — quantity and
donor_email are stored exactly as supplied, and `donation_date` takes
its default, the current timestamp `now`. -/
def donate (db : DB) (medicineName expiry_date : String) (quantity : Int)
    (donor_email : String) (now : Nat) (failLookup failInsert : Bool) :
    DonateResult × DB :=
  if failLookup then (.storageError, db)
  else
    let user? := db.users.find? (fun u => u.email == donor_email)
    let donor_id : Option Nat := user?.map (fun u => u.id)
    if failInsert then (.storageError, db)
    else
      let m : Medicine :=
        { id := db.nextMedId, name := medicineName, expiry_date := expiry_date,
          quantity := quantity, donor_id := donor_id,
          donor_email := donor_email, donation_date := now }
      (.ok db.nextMedId,
       { db with medicines := db.medicines ++ [m], nextMedId := db.nextMedId + 1 })

/-- `ORDER BY donation_date DESC`: newest first. -/
def dateDesc (a b : Medicine) : Bool := b.donation_date ≤ a.donation_date

/-- Sort medicines newest first by donation timestamp. -/
def sortByDateDesc (ms : List Medicine) : List Medicine := ms.mergeSort dateDesc

/-- Row shape of `GET /users/:userId/donations`: the handler selects
`id, name, expiry_date, quantity, donation_date`. -/
structure DonationRow where
  id : Nat
  name : String
  expiry_date : String
  quantity : Int
  donation_date : Nat
deriving Repr, DecidableEq

/-- Projection of a medicine row onto the donation-history columns. -/
def toDonationRow (m : Medicine) : DonationRow :=
  { id := m.id, name := m.name, expiry_date := m.expiry_date,
    quantity := m.quantity, donation_date := m.donation_date }

/-- `GET /users/:userId/donations`: `SELECT ... FROM medicines WHERE
donor_id = ? ORDER BY donation_date DESC`. -/
def listDonationsByAccount (db : DB) (userId : Nat) : List DonationRow :=
  (sortByDateDesc (db.medicines.filter (fun m => m.donor_id == some userId))).map
    toDonationRow

/-- Row shape of `GET /medicines`: the handler selects `m.id, m.name,
m.expiry_date, m.quantity, m.donation_date, m.donor_email` and
`u.fullname as donor_name` through a LEFT JOIN, so `donor_name` is NULL
whenever `donor_id` is NULL or matches no user row. -/
structure AvailableRow where
  id : Nat
  name : String
  expiry_date : String
  quantity : Int
  donation_date : Nat
  donor_email : String
  donor_name : Option String
deriving Repr, DecidableEq

/-- `LEFT JOIN users u ON m.donor_id = u.id` projected onto `u.fullname`:
resolve the donor's full name when the reference is present and matches
a user row (users.id is the primary key, so at most one row matches). -/
def resolveDonorName (users : List User) (donorId? : Option Nat) : Option String :=
  (donorId?.bind (fun i => users.find? (fun u => u.id == i))).map (fun u => u.fullname)

/-- Projection of a medicine row onto the `GET /medicines` columns. -/
def toAvailableRow (users : List User) (m : Medicine) : AvailableRow :=
  { id := m.id, name := m.name, expiry_date := m.expiry_date,
    quantity := m.quantity, donation_date := m.donation_date,
    donor_email := m.donor_email,
    donor_name := resolveDonorName users m.donor_id }

/-- `GET /medicines`: the LEFT JOIN projection of every medicine row,
`ORDER BY m.donation_date DESC`. -/
def listAvailable (db : DB) : List AvailableRow :=
  (sortByDateDesc db.medicines).map (toAvailableRow db.users)

/-- One client request, for stating how any single operation moves the
store. -/
inductive Op where
  | register (fullname email password confirmPassword dob phone st : String)
  | login (email password : String)
  | deleteAcct (userId : Nat)
  | donate (medicineName expiry_date : String) (quantity : Int)
      (donor_email : String) (now : Nat)
  | listAvail
  | listByAccount (userId : Nat)
deriving Repr, DecidableEq

/-- The store after handling one request on its failure-free path (the
two GET routes and login never write). -/
def applyOp (bcryptHash : String → String) (db : DB) : Op → DB
  | .register f e p c d ph s => (register bcryptHash db f e p c d ph s).2
  | .login _ _ => db
  | .deleteAcct uid => (deleteAccount db uid).2
  | .donate n ed q de now => (donate db n ed q de now false false).2
  | .listAvail => db
  | .listByAccount _ => db

/-! Concrete sample data used to exercise the theorems on closed inputs. -/

/-- A registered user, as stored (password field holds the bcrypt hash). -/
def userA : User :=
  { id := 1, fullname := "Alice", email := "a@x.com", password := "h-pw1",
    dob := "2000-01-01", phone := "123", state := "CA" }

/-- A donation attributed to `userA`. -/
def medA : Medicine :=
  { id := 1, name := "Aspirin", expiry_date := "2030-01-01", quantity := 10,
    donor_id := some 1, donor_email := "a@x.com", donation_date := 5 }

/-- A store holding one user and one donation attributed to that user. -/
def dbSample : DB :=
  { users := [userA], medicines := [medA], nextUserId := 2, nextMedId := 2 }

/-- A toy stand-in for the opaque bcrypt hash function. -/
def hashFn (p : String) : String := "h-" ++ p

/-- A toy stand-in for `bcrypt.compare password storedHash`. -/
def compareFn (p h : String) : Bool := h == "h-" ++ p

/-! Helper lemmas about the delete route. -/

/-- On the failure-free path, `DELETE /users/:userId` either rolls back
with 404 leaving the store untouched, or commits both the anonymizing
UPDATE and the row deletion. -/
lemma deleteAccount_cases (db : DB) (uid : Nat) :
    deleteAccount db uid = (.notFound, db) ∨
    deleteAccount db uid =
      (.ok,
       { db with
         users := db.users.filter (fun u => u.id != uid),
         medicines := db.medicines.map (fun m =>
           if m.donor_id == some uid then { m with donor_id := none } else m) }) := by
  unfold deleteAccount deleteAccountF
  simp only [Bool.false_eq_true, if_false]
  split
  · exact Or.inl rfl
  · exact Or.inr rfl

/-- The anonymizing UPDATE preserves each medicine row's id. -/
lemma clear_preserves_id (uid : Nat) (m : Medicine) :
    (if m.donor_id == some uid then { m with donor_id := none } else m).id = m.id := by
  split <;> rfl

/-- C9: deleting a non-existent account id answers 404 and leaves the
store exactly as it was (the anonymizing UPDATE issued before the
`this.changes === 0` check is rolled back). -/
theorem deleteAccount_notFound (db : DB) (uid : Nat)
    (h : ∀ u ∈ db.users, u.id ≠ uid) :
    deleteAccount db uid = (.notFound, db) := by
  unfold deleteAccount deleteAccountF
  simp only [Bool.false_eq_true, if_false]
  have hf : db.users.filter (fun u => u.id != uid) = db.users :=
    List.filter_eq_self.mpr (fun u hu => bne_iff_ne.mpr (h u hu))
  rw [hf]
  simp

/-- C9 witness: deleting id 42 from the sample store (whose only user
has id 1) is a 404 no-op. -/
theorem deleteAccount_notFound_witness :
    (∀ u ∈ dbSample.users, u.id ≠ 42) ∧
    deleteAccount dbSample 42 = (.notFound, dbSample) :=
  ⟨by decide, deleteAccount_notFound dbSample 42 (by decide)⟩

/-- C7: an unknown email and a known email with a non-verifying password
produce the identical login response — same constructor, same HTTP
status, same message — so the reply leaks nothing about which field was
wrong. -/
theorem login_indistinguishable (cmp : String → String → Bool) (db : DB)
    (e1 p1 e2 p2 : String) (u : User)
    (h1 : db.users.find? (fun x => x.email == e1) = none)
    (h2 : db.users.find? (fun x => x.email == e2) = some u)
    (h3 : cmp p2 u.password = false) :
    login cmp db e1 p1 = login cmp db e2 p2 ∧
    login cmp db e1 p1 = .err 400 "Invalid email or password" := by
  unfold login
  rw [h1, h2]
  dsimp only
  rw [h3]
  simp

/-- C7 witness: on the sample store, a never-registered email and the
registered email with a wrong password give the same 400 response. -/
theorem login_indistinguishable_witness :
    dbSample.users.find? (fun x => x.email == "b@x.com") = none ∧
    dbSample.users.find? (fun x => x.email == "a@x.com") = some userA ∧
    compareFn "wrong" userA.password = false ∧
    (login compareFn dbSample "b@x.com" "pw" = login compareFn dbSample "a@x.com" "wrong" ∧
     login compareFn dbSample "b@x.com" "pw" = .err 400 "Invalid email or password") :=
  ⟨by decide, by decide, by decide,
   login_indistinguishable compareFn dbSample "b@x.com" "pw" "a@x.com" "wrong" userA
     (by decide) (by decide) (by decide)⟩

/-- C8: a successful login returns exactly the matched account's id and
email — the `LoginResult.ok` payload has no other field, in particular
no credential hash — and the match verified the supplied password
against the stored hash. -/
theorem login_success_fields (cmp : String → String → Bool) (db : DB)
    (e p : String) (uid : Nat) (em : String)
    (h : login cmp db e p = .ok uid em) :
    ∃ u, db.users.find? (fun x => x.email == e) = some u ∧
      uid = u.id ∧ em = u.email ∧ cmp p u.password = true := by
  unfold login at h
  cases hf : db.users.find? (fun x => x.email == e) with
  | none => rw [hf] at h; exact absurd h (by simp)
  | some u =>
    rw [hf] at h
    dsimp only at h
    by_cases hc : cmp p u.password = true
    · rw [if_pos hc] at h
      cases h
      exact ⟨u, rfl, rfl, rfl, hc⟩
    · rw [if_neg hc] at h
      exact absurd h (by simp)

/-- C8 witness: logging into the sample store with the right password
returns id 1 and the email, and they come from the matched user row. -/
theorem login_success_fields_witness :
    login compareFn dbSample "a@x.com" "pw1" = .ok 1 "a@x.com" ∧
    ∃ u, dbSample.users.find? (fun x => x.email == "a@x.com") = some u ∧
      1 = u.id ∧ "a@x.com" = u.email ∧ compareFn "pw1" u.password = true :=
  ⟨by decide,
   login_success_fields compareFn dbSample "a@x.com" "pw1" 1 "a@x.com" (by decide)⟩

/-- C3: every failure-free `POST /donate` appends exactly one record and
answers 201 with its id; the record's donor reference is the id of the
account matching `donor_email` when one exists and absent otherwise (no
error on a missed match), and `donor_email` is stored verbatim either
way. -/
theorem donate_best_effort (db : DB) (n ed : String) (q : Int) (de : String)
    (now : Nat) :
    ∃ m, (donate db n ed q de now false false).2.medicines = db.medicines ++ [m] ∧
      (donate db n ed q de now false false).1 = .ok m.id ∧
      m.donor_email = de ∧
      ((∃ u, db.users.find? (fun u => u.email == de) = some u ∧
          m.donor_id = some u.id) ∨
       (db.users.find? (fun u => u.email == de) = none ∧ m.donor_id = none)) := by
  unfold donate
  simp only [Bool.false_eq_true, if_false]
  cases hf : db.users.find? (fun u => u.email == de) with
  | none => exact ⟨_, rfl, rfl, rfl, Or.inr ⟨rfl, rfl⟩⟩
  | some u => exact ⟨_, rfl, rfl, rfl, Or.inl ⟨u, rfl, rfl⟩⟩

/-- C5 counterexample: donating with quantity 0 succeeds and stores a
record whose quantity is not a positive integer — the handler never
validates quantity. -/
theorem donate_zero_quantity_accepted :
    (donate initDB "Aspirin" "2030-01-01" 0 "a@x.com" 5 false false).1 = .ok 1 ∧
    ∃ m, m ∈ (donate initDB "Aspirin" "2030-01-01" 0 "a@x.com" 5 false false).2.medicines ∧
      ¬(0 < m.quantity) := by
  exact ⟨by decide,
    ⟨{ id := 1, name := "Aspirin", expiry_date := "2030-01-01", quantity := 0,
       donor_id := none, donor_email := "a@x.com", donation_date := 5 },
     by decide, by decide⟩⟩

/-- C5 amended: the quantity of a record created by a successful Donate
equals the quantity supplied in the request verbatim — it is a positive
integer exactly when the caller supplied one, no validation happens. -/
theorem donate_quantity_verbatim (db : DB) (n ed : String) (q : Int)
    (de : String) (now : Nat) :
    ∃ m, (donate db n ed q de now false false).2.medicines = db.medicines ++ [m] ∧
      (donate db n ed q de now false false).1 = .ok m.id ∧
      m.quantity = q := by
  unfold donate
  simp only [Bool.false_eq_true, if_false]
  exact ⟨_, rfl, rfl, rfl⟩

/-- The store produced by registering Alice on an empty store. -/
def dbAfterReg : DB :=
  { users := [userA], medicines := [], nextUserId := 2, nextMedId := 1 }

/-- `dateDesc` is transitive. -/
lemma dateDesc_trans (a b c : Medicine) (hab : dateDesc a b = true)
    (hbc : dateDesc b c = true) : dateDesc a c = true := by
  simp only [dateDesc, decide_eq_true_eq] at *
  exact le_trans hbc hab

/-- `dateDesc` is total. -/
lemma dateDesc_total (a b : Medicine) : (dateDesc a b || dateDesc b a) = true := by
  simp only [dateDesc, Bool.or_eq_true, decide_eq_true_eq]
  exact Nat.le_total b.donation_date a.donation_date

/-- C2: `DELETE /users/:userId` is atomic.  Whatever the starting store
and whichever statement fails, either the response is 200 and both the
donor-reference clearing and the account-row removal took effect (and
afterwards no record references `uid`), or the response is not 200 and
the store is exactly as it was; in every case the set of donation
records, identified by id, is untouched. -/
theorem deleteAccount_atomic (db : DB) (uid : Nat) (f1 f2 : Bool) :
    (((deleteAccountF db uid f1 f2).1 = .ok ∧
      (deleteAccountF db uid f1 f2).2.users =
        db.users.filter (fun u => u.id != uid) ∧
      (deleteAccountF db uid f1 f2).2.medicines =
        db.medicines.map (fun m =>
          if m.donor_id == some uid then { m with donor_id := none } else m) ∧
      ∀ m ∈ (deleteAccountF db uid f1 f2).2.medicines, m.donor_id ≠ some uid) ∨
     ((deleteAccountF db uid f1 f2).1 ≠ .ok ∧
      (deleteAccountF db uid f1 f2).2 = db)) ∧
    (deleteAccountF db uid f1 f2).2.medicines.map (fun m => m.id) =
      db.medicines.map (fun m => m.id) := by
  cases f1 with
  | true => exact ⟨Or.inr ⟨by simp [deleteAccountF], by simp [deleteAccountF]⟩, rfl⟩
  | false =>
  cases f2 with
  | true => exact ⟨Or.inr ⟨by simp [deleteAccountF], by simp [deleteAccountF]⟩, rfl⟩
  | false =>
  have e : deleteAccountF db uid false false = deleteAccount db uid := rfl
  rw [e]
  rcases deleteAccount_cases db uid with h | h <;> rw [h]
  · exact ⟨Or.inr ⟨by simp, rfl⟩, rfl⟩
  · refine ⟨Or.inl ⟨rfl, rfl, rfl, ?_⟩, ?_⟩
    · intro m hm
      obtain ⟨m0, _, rfl⟩ := List.mem_map.mp hm
      split
      · simp
      · rename_i hc
        simpa using hc
    · rw [List.map_map]
      exact List.map_congr_left (fun m _ => clear_preserves_id uid m)

/-- C6: once a registration with email `e` has succeeded, any further
registration with the same email (and matching password confirmation,
any passwords) is refused with the "Email already in use" conflict. -/
theorem register_conflict (bh : String → String) (db : DB)
    (f e p cp d ph s : String) (uid : Nat) (db1 : DB)
    (f2 p2 cp2 d2 ph2 s2 : String)
    (h1 : register bh db f e p cp d ph s = (.ok uid, db1))
    (h2 : p2 = cp2) :
    (register bh db1 f2 e p2 cp2 d2 ph2 s2).1 = .emailInUse := by
  unfold register at h1
  by_cases hp : p ≠ cp
  · rw [if_pos hp] at h1
    simp at h1
  · rw [if_neg hp] at h1
    cases hf : db.users.find? (fun u => u.email == e) with
    | some _ =>
      rw [hf] at h1
      dsimp only at h1
      simp at h1
    | none =>
      rw [hf] at h1
      dsimp only at h1
      injection h1 with hA hB
      have hu : db1.users =
          db.users ++
            [{ id := db.nextUserId, fullname := f, email := e,
               password := bh p, dob := d, phone := ph, state := s }] := by
        rw [← hB]
      unfold register
      rw [if_neg (by simp [h2])]
      rw [hu, List.find?_append, hf]
      simp

/-- C6 witness: registering Alice's email a second time on the store
produced by her successful registration yields the conflict error. -/
theorem register_conflict_witness :
    register hashFn initDB "Alice" "a@x.com" "pw1" "pw1" "2000-01-01" "123" "CA" =
      (.ok 1, dbAfterReg) ∧
    (register hashFn dbAfterReg "Bob" "a@x.com" "pw9" "pw9" "1999-01-01" "456" "NY").1 =
      .emailInUse :=
  ⟨by decide,
   register_conflict hashFn initDB "Alice" "a@x.com" "pw1" "pw1" "2000-01-01"
     "123" "CA" 1 dbAfterReg "Bob" "pw9" "pw9" "1999-01-01" "456" "NY"
     (by decide) rfl⟩

/-- C10: `GET /medicines` returns a row for every donation record, and
`GET /users/:userId/donations` returns rows for exactly the records
whose donor reference equals the account id; both are ordered newest
first by donation timestamp. -/
theorem list_views (db : DB) (uid : Nat) :
    (listAvailable db).Perm (db.medicines.map (toAvailableRow db.users)) ∧
    (listAvailable db).Pairwise (fun a b => b.donation_date ≤ a.donation_date) ∧
    (listDonationsByAccount db uid).Perm
      ((db.medicines.filter (fun m => m.donor_id == some uid)).map toDonationRow) ∧
    (listDonationsByAccount db uid).Pairwise
      (fun a b => b.donation_date ≤ a.donation_date) := by
  refine ⟨?_, ?_, ?_, ?_⟩
  · exact List.Perm.map _ (List.mergeSort_perm db.medicines dateDesc)
  · have hs := List.sorted_mergeSort dateDesc_trans dateDesc_total db.medicines
    exact List.Pairwise.map _
      (fun a b hab => by simpa [dateDesc, decide_eq_true_eq] using hab) hs
  · exact List.Perm.map _ (List.mergeSort_perm _ dateDesc)
  · have hs := List.sorted_mergeSort dateDesc_trans dateDesc_total
      (db.medicines.filter (fun m => m.donor_id == some uid))
    exact List.Pairwise.map _
      (fun a b hab => by simpa [dateDesc, decide_eq_true_eq] using hab) hs

/-- After the anonymizing UPDATE, no medicine row satisfies the
`WHERE donor_id = uid` filter. -/
lemma filter_cleared (uid : Nat) (ms : List Medicine) :
    (ms.map (fun m =>
      if m.donor_id == some uid then { m with donor_id := none } else m)).filter
      (fun m => m.donor_id == some uid) = [] := by
  apply List.filter_eq_nil_iff.mpr
  intro m hm
  obtain ⟨m0, _, rfl⟩ := List.mem_map.mp hm
  split
  · simp
  · rename_i hc
    simpa using hc

/-- C1: when `DELETE /users/:userId` succeeds, the user's donation
history view becomes empty, while the available-medicines view still
carries a row for every record previously attributed to that user —
with no donor name resolved and `donor_email` unchanged. -/
theorem delete_preserves_donations (db : DB) (uid : Nat)
    (hok : (deleteAccount db uid).1 = .ok) :
    listDonationsByAccount (deleteAccount db uid).2 uid = [] ∧
    ∀ m ∈ db.medicines, m.donor_id = some uid →
      ∃ row ∈ listAvailable (deleteAccount db uid).2,
        row.id = m.id ∧ row.donor_name = none ∧ row.donor_email = m.donor_email := by
  rcases deleteAccount_cases db uid with h | h
  · rw [h] at hok
    simp at hok
  · rw [h]
    dsimp only
    constructor
    · unfold listDonationsByAccount
      rw [filter_cleared]
      simp [sortByDateDesc]
    · intro m hm hdid
      have hmem : ({ m with donor_id := none } : Medicine) ∈
          db.medicines.map (fun m =>
            if m.donor_id == some uid then { m with donor_id := none } else m) := by
        have hmm := List.mem_map_of_mem (fun m =>
          if m.donor_id == some uid then { m with donor_id := none } else m) hm
        dsimp only at hmm
        rw [if_pos (by rw [hdid]; exact beq_self_eq_true _)] at hmm
        exact hmm
      have hmem2 : ({ m with donor_id := none } : Medicine) ∈
          sortByDateDesc (db.medicines.map (fun m =>
            if m.donor_id == some uid then { m with donor_id := none } else m)) :=
        ((List.mergeSort_perm _ _).mem_iff).mpr hmem
      exact ⟨toAvailableRow (db.users.filter (fun u => u.id != uid))
          { m with donor_id := none },
        List.mem_map_of_mem _ hmem2, rfl, rfl, rfl⟩

/-- C1 witness: deleting user 1 from the sample store empties their
history and leaves the aspirin row visible, anonymous, with its
donor_email intact. -/
theorem delete_preserves_donations_witness :
    (deleteAccount dbSample 1).1 = .ok ∧
    (listDonationsByAccount (deleteAccount dbSample 1).2 1 = [] ∧
     ∀ m ∈ dbSample.medicines, m.donor_id = some 1 →
       ∃ row ∈ listAvailable (deleteAccount dbSample 1).2,
         row.id = m.id ∧ row.donor_name = none ∧ row.donor_email = m.donor_email) :=
  ⟨by decide, delete_preserves_donations dbSample 1 (by decide)⟩

/-- A list equation transports indexed access. -/
lemma exists_get_eq {α : Type} {l l' : List α} (e : l' = l) (i : Nat)
    (h : i < l.length) : ∃ h' : i < l'.length, l'.get ⟨i, h'⟩ = l.get ⟨i, h⟩ := by
  subst e
  exact ⟨h, rfl⟩

/-- Indexed access through `List.map`. -/
lemma exists_get_map {α β : Type} (f : α → β) (l : List α) (i : Nat)
    (h : i < l.length) :
    ∃ h' : i < (l.map f).length, (l.map f).get ⟨i, h'⟩ = f (l.get ⟨i, h⟩) := by
  have h' : i < (l.map f).length := by simpa using h
  exact ⟨h', by simp [List.get_eq_getElem, List.getElem_map]⟩

/-- Indexed access into the prefix of an append. -/
lemma exists_get_append {α : Type} (l : List α) (x : α) (i : Nat)
    (h : i < l.length) :
    ∃ h' : i < (l ++ [x]).length, (l ++ [x]).get ⟨i, h'⟩ = l.get ⟨i, h⟩ := by
  have h' : i < (l ++ [x]).length := by simp; omega
  exact ⟨h', by simp [List.get_eq_getElem, List.getElem_append_left h]⟩

/-- `POST /register` never touches the medicines table. -/
lemma register_medicines (bh : String → String) (db : DB)
    (f e p c d ph s : String) :
    (register bh db f e p c d ph s).2.medicines = db.medicines := by
  unfold register
  split
  · rfl
  · split <;> rfl

/-- C4: across any single operation on any store, each existing donation
record keeps its id and its donor reference either stays put or makes
the one-way transition Linked(uid) → Anonymous, and only a DeleteAccount
for that uid causes it; an absent reference never becomes linked again.
Moreover a Donate whose email matches no account creates its record
directly in the Anonymous state. -/
theorem donor_ref_one_way :
    (∀ (bh : String → String) (db : DB) (op : Op) (i : Nat)
      (h : i < db.medicines.length),
      ∃ h' : i < (applyOp bh db op).medicines.length,
        ((applyOp bh db op).medicines.get ⟨i, h'⟩).id =
          (db.medicines.get ⟨i, h⟩).id ∧
        ((db.medicines.get ⟨i, h⟩).donor_id = none →
          ((applyOp bh db op).medicines.get ⟨i, h'⟩).donor_id = none) ∧
        (((applyOp bh db op).medicines.get ⟨i, h'⟩).donor_id =
            (db.medicines.get ⟨i, h⟩).donor_id ∨
         ∃ uid, op = .deleteAcct uid ∧
           (db.medicines.get ⟨i, h⟩).donor_id = some uid ∧
           ((applyOp bh db op).medicines.get ⟨i, h'⟩).donor_id = none)) ∧
    (∀ (db : DB) (n ed : String) (q : Int) (de : String) (now : Nat),
      db.users.find? (fun u => u.email == de) = none →
      ∃ m, (donate db n ed q de now false false).2.medicines =
          db.medicines ++ [m] ∧ m.donor_id = none) := by
  constructor
  · intro bh db op i h
    cases op with
    | register f e p c d ph s =>
      have hm : (applyOp bh db (.register f e p c d ph s)).medicines = db.medicines :=
        register_medicines bh db f e p c d ph s
      obtain ⟨h', he⟩ := exists_get_eq hm i h
      exact ⟨h', by rw [he], fun hn => by rw [he]; exact hn, Or.inl (by rw [he])⟩
    | login e p =>
      exact ⟨h, rfl, fun hn => hn, Or.inl rfl⟩
    | listAvail =>
      exact ⟨h, rfl, fun hn => hn, Or.inl rfl⟩
    | listByAccount uid =>
      exact ⟨h, rfl, fun hn => hn, Or.inl rfl⟩
    | deleteAcct uid =>
      rcases deleteAccount_cases db uid with hd | hd
      · have hm : (applyOp bh db (.deleteAcct uid)).medicines = db.medicines := by
          show (deleteAccount db uid).2.medicines = db.medicines
          rw [hd]
        obtain ⟨h', he⟩ := exists_get_eq hm i h
        exact ⟨h', by rw [he], fun hn => by rw [he]; exact hn, Or.inl (by rw [he])⟩
      · obtain ⟨h'', hg⟩ := exists_get_map (fun m =>
          if m.donor_id == some uid then { m with donor_id := none } else m)
          db.medicines i h
        have hm : (applyOp bh db (.deleteAcct uid)).medicines =
            db.medicines.map (fun m =>
              if m.donor_id == some uid then { m with donor_id := none } else m) := by
          show (deleteAccount db uid).2.medicines = _
          rw [hd]
        obtain ⟨h', he⟩ := exists_get_eq hm i h''
        rw [hg] at he
        by_cases hc : ((db.medicines.get ⟨i, h⟩).donor_id == some uid) = true
        · rw [if_pos hc] at he
          refine ⟨h', by rw [he], fun _ => by rw [he],
            Or.inr ⟨uid, rfl, ?_, by rw [he]⟩⟩
          exact beq_iff_eq.mp hc
        · rw [if_neg hc] at he
          exact ⟨h', by rw [he], fun hn => by rw [he]; exact hn, Or.inl (by rw [he])⟩
    | donate n ed q de now =>
      have hx : ∃ x, (donate db n ed q de now false false).2.medicines =
          db.medicines ++ [x] := by
        unfold donate
        simp only [Bool.false_eq_true, if_false]
        exact ⟨_, rfl⟩
      obtain ⟨x, hx⟩ := hx
      obtain ⟨h'', hg⟩ := exists_get_append db.medicines x i h
      have hm : (applyOp bh db (.donate n ed q de now)).medicines =
          db.medicines ++ [x] := hx
      obtain ⟨h', he⟩ := exists_get_eq hm i h''
      rw [hg] at he
      exact ⟨h', by rw [he], fun hn => by rw [he]; exact hn, Or.inl (by rw [he])⟩
  · intro db n ed q de now hf
    unfold donate
    simp only [Bool.false_eq_true, if_false]
    rw [hf]
    exact ⟨_, rfl, rfl⟩

/-- C4 witness: deleting account 1 on the sample store moves the
aspirin record from Linked(1) to Anonymous, and an unmatched donate on
an empty store creates an Anonymous record. -/
theorem donor_ref_one_way_witness :
    (∃ h' : 0 < (applyOp hashFn dbSample (Op.deleteAcct 1)).medicines.length,
      ((applyOp hashFn dbSample (Op.deleteAcct 1)).medicines.get ⟨0, h'⟩).id =
        (dbSample.medicines.get ⟨0, by decide⟩).id ∧
      ((dbSample.medicines.get ⟨0, by decide⟩).donor_id = none →
        ((applyOp hashFn dbSample (Op.deleteAcct 1)).medicines.get
          ⟨0, h'⟩).donor_id = none) ∧
      (((applyOp hashFn dbSample (Op.deleteAcct 1)).medicines.get
          ⟨0, h'⟩).donor_id = (dbSample.medicines.get ⟨0, by decide⟩).donor_id ∨
       ∃ uid, Op.deleteAcct 1 = Op.deleteAcct uid ∧
         (dbSample.medicines.get ⟨0, by decide⟩).donor_id = some uid ∧
         ((applyOp hashFn dbSample (Op.deleteAcct 1)).medicines.get
           ⟨0, h'⟩).donor_id = none)) ∧
    (∃ m, (donate initDB "Aspirin" "2030-01-01" 10 "b@x.com" 5 false false).2.medicines =
        initDB.medicines ++ [m] ∧ m.donor_id = none) :=
  ⟨donor_ref_one_way.1 hashFn dbSample (Op.deleteAcct 1) 0 (by decide),
   donor_ref_one_way.2 initDB "Aspirin" "2030-01-01" 10 "b@x.com" 5 (by decide)⟩

end CareConnect
